import Mathlib

/-!
Verification of the graph storage layer (`src/ein`): entity models
(`node.py`, `edge.py`), the storage gateway (`database.py`) and the
in-memory graph view (`graph.py`), shallowly embedded in Lean.

Modelling conventions:
* JSON values (node bodies, edge properties) are modelled as their
  serialized text.  `json.dumps`/`json.loads` on such a value is the
  identity; `json.dumps(None) = "null"` and `json.loads "null" = None`
  are modelled by `pyDumpsOpt`/`pyLoads`.  Where the *shape* of the
  serialization matters (the `get_nodes` body filter) the mapping is
  modelled as a key/value list and `json.dumps` is modelled char by
  char (`dumpBody`).
* Python `dict` is an association list with unique keys; `dictInsert`
  replaces in place like dict assignment, `dictLookup` is subscripting
  (`none` corresponds to a raised `KeyError`), `dictRemove` is `pop`.
* Fallible Python code returns `Except Err`; an `Except.error` is a
  raised exception of the named kind.
* The SQLite engine is a black box.  The project's `sql/*.sql` template
  files are not part of the sources, so table-level semantics of each
  statement are modelled from the spec (see the doc comment of each
  `Database` operation); all operations assume the schema's tables
  exist (engine errors for missing tables are outside the model).
-/

namespace Ein

/-- Decidable equality of `Except` results, for evaluating the model
on concrete inputs. -/
instance {ε α : Type} [DecidableEq ε] [DecidableEq α] : DecidableEq (Except ε α)
  | .ok a, .ok b =>
    if h : a = b then isTrue (h ▸ rfl) else isFalse (fun hc => h (Except.ok.inj hc))
  | .ok _, .error _ => isFalse (fun hc => Except.noConfusion hc)
  | .error _, .ok _ => isFalse (fun hc => Except.noConfusion hc)
  | .error a, .error b =>
    if h : a = b then isTrue (h ▸ rfl) else isFalse (fun hc => h (Except.error.inj hc))

/-- Exception kinds raised by the embedded code: the two error classes
declared in `database.py`, plus the builtin Python exceptions the code
can raise (`KeyError` from dict subscripting, `TypeError` from
subscripting `None`) and the engine's constraint error. -/
inductive Err where
  | keyError
  | typeError
  | integrityError
  | disallowedOperator
  | incompleteStatement
  deriving DecidableEq

/-- `node.py`: `Node(schema_name, id, body)`.  The `edges` attribute is
always `None` in the repository and is omitted.  `body` is the JSON
mapping, modelled as its serialized text. -/
structure Node where
  schema_name : String
  id : String
  body : String
  deriving DecidableEq

/-- Python truthiness of an optional string argument: `None` and the
empty string are falsy (`x if x else d`). -/
def pyOrDefault (o : Option String) (d : String) : String :=
  match o with
  | none => d
  | some s => if s = "" then d else s

/-- `json.dumps` on an optional JSON value: `None` serializes to
`"null"`, any other value to its text (identity in this model). -/
def pyDumpsOpt : Option String → String
  | none => "null"
  | some s => s

/-- `json.loads` on serialized text: `"null"` deserializes to `None`. -/
def pyLoads (s : String) : Option String :=
  if s = "null" then none else some s

/-- `edge.py`: `Edge(schema_name, source, target, source_schema_name,
target_schema_name, properties)`.  `source`/`target` are full `Node`
objects, as in the source. -/
structure Edge where
  schema_name : String
  source : Node
  target : Node
  source_schema_name : String
  target_schema_name : String
  properties : Option String
  deriving DecidableEq

/-- `Edge.__init__`: the endpoint schema names default to `schema_name`
when absent or empty (Python truthiness). -/
def Edge.init (schema_name : String) (source target : Node)
    (source_schema_name target_schema_name : Option String)
    (properties : Option String) : Edge :=
  { schema_name := schema_name
    source := source
    target := target
    source_schema_name := pyOrDefault source_schema_name schema_name
    target_schema_name := pyOrDefault target_schema_name schema_name
    properties := properties }

/-- `Edge.__eq__(source, target)` with both arguments present: equality
of the two endpoint ids only (properties are not compared). -/
def Edge.eqNodes (e : Edge) (source target : Node) : Bool :=
  e.source.id == source.id && e.target.id == target.id

/-- A row of a `<schema>_nodes` table; `schema` records which table the
row lives in. -/
structure NodeRow where
  schema : String
  id : String
  body : String
  deriving DecidableEq

/-- A row of a `<schema>_edges` table. -/
structure EdgeRow where
  schema : String
  source : String
  source_schema : String
  target : String
  target_schema : String
  properties : String
  deriving DecidableEq

/-- The SQLite file: the catalog of table names plus the rows of every
node and edge table. -/
structure Store where
  tables : List String
  nodeRows : List NodeRow
  edgeRows : List EdgeRow
  deriving DecidableEq

/-- Python dict subscript `d[k]`: first (unique) binding, `none` when
the key is absent (a raised `KeyError` at call sites). -/
def dictLookup (k : String) : List (String × Node) → Option Node
  | [] => none
  | (k', v) :: rest => if k' == k then some v else dictLookup k rest

/-- Python dict assignment `d[k] = v`: replace the binding in place if
the key exists, else append (insertion order preserved). -/
def dictInsert (k : String) (v : Node) : List (String × Node) → List (String × Node)
  | [] => [(k, v)]
  | (k', v') :: rest =>
    if k' == k then (k, v) :: rest else (k', v') :: dictInsert k v rest

/-- Python `d.pop(k)` (the removal part; the `KeyError` on an absent
key is handled at call sites). -/
def dictRemove (k : String) : List (String × Node) → List (String × Node)
  | [] => []
  | (k', v') :: rest =>
    if k' == k then rest else (k', v') :: dictRemove k rest

namespace Database

/-- `Database.get_node`: `fetchone` of the row with the given id.
Modelled from the spec: `sql/select-node.sql` selects from
`<schema>_nodes` by `id` with the id bound as a parameter. -/
def get_node (st : Store) (schema_name node_id : String) : Option NodeRow :=
  st.nodeRows.find? (fun r => r.schema == schema_name && r.id == node_id)

/-- `Database.get_all_nodes`: every row of `<schema>_nodes`.
Modelled from the spec: `sql/select-all-nodes.sql`. -/
def get_all_nodes (st : Store) (schema_name : String) : List NodeRow :=
  st.nodeRows.filter (fun r => r.schema == schema_name)

/-- `Database.get_edge`: `fetchone` of the first edge row matching
source and target.  Modelled from the spec: `sql/select-edge.sql`
selects from `<schema>_edges` by bound `source` and `target`. -/
def get_edge (st : Store) (schema_name source_id target_id : String) : Option EdgeRow :=
  st.edgeRows.find?
    (fun r => r.schema == schema_name && r.source == source_id && r.target == target_id)

/-- `Database.get_all_edges`.  Modelled from the spec:
`sql/select-all-edges.sql`. -/
def get_all_edges (st : Store) (schema_name : String) : List EdgeRow :=
  st.edgeRows.filter (fun r => r.schema == schema_name)

/-- `Database.add_node`: insert `(node_id, json.dumps(node_body))`.
Modelled from the spec: `sql/insert-node.sql` is a plain parameterized
INSERT into `<schema>_nodes(id TEXT PRIMARY KEY, body)`, so a
duplicate id raises the engine's constraint error. -/
def add_node (st : Store) (schema_name node_id node_body : String) : Except Err Store :=
  if (get_node st schema_name node_id).isSome then
    .error .integrityError
  else
    .ok { st with nodeRows := st.nodeRows ++ [⟨schema_name, node_id, node_body⟩] }

/-- `Database.add_nodes`: bulk `executemany` of `insert-node.sql`, one
transaction for the batch (all rows or none, per the spec). -/
def add_nodes (st : Store) (schema_name : String)
    (nodes : List (String × String)) : Except Err Store :=
  nodes.foldlM (fun s kv => add_node s schema_name kv.1 kv.2) st

/-- `Database.update_node`: full-body replace by id; a no-op (zero
rows affected) when the id is absent.  Modelled from the spec:
`sql/update-node.sql` is `UPDATE <schema>_nodes SET body = ? WHERE
id = ?`. -/
def update_node (st : Store) (schema_name node_id node_body : String) : Store :=
  { st with nodeRows := st.nodeRows.map (fun r =>
      if r.schema == schema_name && r.id == node_id then
        { r with body := node_body } else r) }

/-- Insertion of one fully-specified edge row.  Modelled from the spec:
`sql/insert-edge.sql` targets `<schema>_edges` with
`UNIQUE(source, source_schema, target, target_schema, properties)
ON CONFLICT REPLACE` and foreign keys from each endpoint into its
schema's node table (a dangling endpoint raises the engine's
constraint error). -/
def insertEdgeRow (st : Store) (schema_name source_id source_schema
    target_id target_schema properties : String) : Except Err Store :=
  if (st.nodeRows.find? (fun r => r.schema == source_schema && r.id == source_id)).isNone then
    .error .integrityError
  else if (st.nodeRows.find? (fun r => r.schema == target_schema && r.id == target_id)).isNone then
    .error .integrityError
  else
    .ok { st with edgeRows :=
      st.edgeRows.filter (fun r => !(r.schema == schema_name
          && r.source == source_id && r.source_schema == source_schema
          && r.target == target_id && r.target_schema == target_schema
          && r.properties == properties))
        ++ [⟨schema_name, source_id, source_schema, target_id, target_schema, properties⟩] }

/-- `Database.add_edge`: endpoint schema names default to
`schema_name` (Python truthiness), properties pass through
`json.dumps`. -/
def add_edge (st : Store) (schema_name source_id target_id : String)
    (source_schema_name target_schema_name : Option String)
    (properties : Option String) : Except Err Store :=
  insertEdgeRow st schema_name
    source_id (pyOrDefault source_schema_name schema_name)
    target_id (pyOrDefault target_schema_name schema_name)
    (pyDumpsOpt properties)

/-- `Database.add_edges`: bulk `executemany` of `insert-edge.sql` over
already fully-specified 5-tuples, one transaction for the batch. -/
def add_edges (st : Store) (schema_name : String)
    (edges : List (String × String × String × String × String)) : Except Err Store :=
  edges.foldlM (fun s t => insertEdgeRow s schema_name t.1 t.2.1 t.2.2.1 t.2.2.2.1 t.2.2.2.2) st

/-- `Database.update_edge`: set `properties` on every row matching
source and target.  Modelled from the spec: `sql/update-edge.sql` is
`UPDATE <schema>_edges SET properties = ? WHERE source = ? AND
target = ?`. -/
def update_edge (st : Store) (schema_name source_id target_id : String)
    (properties : Option String) : Store :=
  { st with edgeRows := st.edgeRows.map (fun r =>
      if r.schema == schema_name && r.source == source_id && r.target == target_id then
        { r with properties := pyDumpsOpt properties } else r) }

/-- `Database.delete_node`.  Modelled from the spec:
`sql/delete-node.sql` is `DELETE FROM <schema>_nodes WHERE id = ?`. -/
def delete_node (st : Store) (schema_name node_id : String) : Store :=
  { st with nodeRows := st.nodeRows.filter (fun r =>
      !(r.schema == schema_name && r.id == node_id)) }

/-- `Database.delete_edge`.  Modelled from the spec:
`sql/delete-edge.sql` deletes from `<schema>_edges` by bound source
and target. -/
def delete_edge (st : Store) (schema_name source_id target_id : String) : Store :=
  { st with edgeRows := st.edgeRows.filter (fun r =>
      !(r.schema == schema_name && r.source == source_id && r.target == target_id)) }

end Database

/-- Whether `pat` is a leading segment of `l` (character-level,
used to model substring containment). -/
def leadsWith : List Char → List Char → Bool
  | [], _ => true
  | _ :: _, [] => false
  | p :: ps, x :: xs => p == x && leadsWith ps xs

/-- Whether `pat` occurs as a contiguous substring of `l`: models the
SQL `LIKE '%pat%'` predicate and Python's `in` on strings. -/
def containsSub (pat : List Char) : List Char → Bool
  | [] => leadsWith pat []
  | x :: xs => leadsWith pat (x :: xs) || containsSub pat xs

/-- `Database.get_schemas`: table names from `sqlite_master` matching
`LIKE '%' || ? || '%'`, with `None` passed as the empty string.
Modelled from the spec: `sql/select-schemas.sql` reads the catalog of
table names matching a LIKE pattern built from the schema prefix. -/
def Database.get_schemas (st : Store) (schema_name : Option String) : List String :=
  st.tables.filter (fun t => containsSub (schema_name.getD "").data t.data)

/-- The characters of a string before its first underscore: Python's
`s.split("_")[0]` (the whole string when no underscore occurs). -/
def takeBeforeUnderscore : List Char → List Char
  | [] => []
  | c :: cs => if c == '_' then [] else c :: takeBeforeUnderscore cs

/-- `schema_name.split("_")[0]` as used by `Graph._all_schemas`. -/
def pySplitHead (s : String) : String :=
  ⟨takeBeforeUnderscore s.data⟩

/-- `graph.py`: the in-memory Graph View — the backing store plus the
`schemas` set, the `nodes` dict and the `edges` list. -/
structure GraphState where
  store : Store
  schemas : List String
  nodes : List (String × Node)
  edges : List Edge
  deriving DecidableEq

namespace Graph

/-- `Graph._all_schemas`: every catalog table name, cut at its first
underscore by `split("_")[0]`, collected into a set (de-duplicated). -/
def _all_schemas (st : Store) : List String :=
  ((Database.get_schemas st none).map pySplitHead).dedup

/-- `Graph._create_node`: a `Node` from a database row
(`json.loads(row["body"])` is the identity on serialized text). -/
def _create_node (schema_name : String) (row : NodeRow) : Node :=
  ⟨schema_name, row.id, row.body⟩

/-- `Graph.get_node`: `self.nodes[node_id]` raises `KeyError` when the
id is absent; a present `Node` object is truthy, so the `else: return
None` branch is unreachable. -/
def get_node (g : GraphState) (node_id : String) : Except Err (Option Node) :=
  match dictLookup node_id g.nodes with
  | none => .error .keyError
  | some n => .ok (some n)

/-- `Graph._create_edge` with `self.nodes` passed explicitly (it is
invoked both during construction and after mutations on the current
cache): `self.get_node(row["source"])` raises `KeyError` when the
endpoint id is absent from the node map, then the target likewise;
`properties` pass through `json.loads`. -/
def _create_edge (nodes : List (String × Node)) (schema_name : String)
    (row : EdgeRow) : Except Err Edge :=
  match dictLookup row.source nodes with
  | none => .error .keyError
  | some s =>
    match dictLookup row.target nodes with
    | none => .error .keyError
    | some t => .ok (Edge.init schema_name s t none none (pyLoads row.properties))

/-- `Graph._all_schema_nodes`: for every schema, every node row becomes
a `Node` keyed by id. -/
def _all_schema_nodes (st : Store) (schemas : List String) : List (String × Node) :=
  schemas.foldl (fun acc schema_name =>
    (Database.get_all_nodes st schema_name).foldl (fun a r =>
      dictInsert r.id (_create_node schema_name r) a) acc) []

/-- `Graph._all_schema_edges`: every edge row of every schema becomes
an `Edge`, resolving endpoints against the just-loaded node map; a
`KeyError` from `_create_edge` propagates (the constructor crashes). -/
def _all_schema_edges (st : Store) (schemas : List String)
    (nodes : List (String × Node)) : Except Err (List Edge) :=
  schemas.foldlM (fun acc schema_name => do
    let es ← (Database.get_all_edges st schema_name).mapM (_create_edge nodes schema_name)
    pure (acc ++ es)) []

/-- `Graph.__init__` on an existing store: discover schemas, load all
nodes, then all edges. -/
def init (st : Store) : Except Err GraphState := do
  let schemas := _all_schemas st
  let nodes := _all_schema_nodes st schemas
  let edges ← _all_schema_edges st schemas nodes
  .ok ⟨st, schemas, nodes, edges⟩

/-- `Graph.add_node`: gateway insert, then a fresh `get_node` re-read;
subscripting an absent re-read row would be a `TypeError`. -/
def add_node (g : GraphState) (schema_name : String) (node : Node) :
    Except Err GraphState :=
  match Database.add_node g.store schema_name node.id node.body with
  | .error e => .error e
  | .ok st =>
    match Database.get_node st schema_name node.id with
    | none => .error .typeError
    | some row =>
      .ok { g with store := st
                   nodes := dictInsert row.id (_create_node schema_name row) g.nodes }

/-- `Graph.add_nodes`: bulk gateway insert, then `self.nodes[node.id] =
node` for each caller-supplied `Node` object (no re-read; the `TODO`
comment in the source records this). -/
def add_nodes (g : GraphState) (schema_name : String) (nodes : List Node) :
    Except Err GraphState :=
  match Database.add_nodes g.store schema_name (nodes.map fun n => (n.id, n.body)) with
  | .error e => .error e
  | .ok st =>
    .ok { g with store := st
                 nodes := nodes.foldl (fun acc n => dictInsert n.id n acc) g.nodes }

/-- `Graph.add_edge`: gateway insert, fresh `get_edge` re-read, then
`_create_edge` on the re-read row against the current node cache. -/
def add_edge (g : GraphState) (edge : Edge) : Except Err GraphState :=
  match Database.add_edge g.store edge.schema_name edge.source.id edge.target.id
      (some edge.source_schema_name) (some edge.target_schema_name) edge.properties with
  | .error e => .error e
  | .ok st =>
    match Database.get_edge st edge.schema_name edge.source.id edge.target.id with
    | none => .error .typeError
    | some row =>
      match _create_edge g.nodes edge.schema_name row with
      | .error e => .error e
      | .ok e => .ok { g with store := st, edges := g.edges ++ [e] }

/-- `Graph.add_edges`: bulk gateway insert of the 5-tuples, then
`self.edges += edges` — the caller-supplied `Edge` objects are appended
directly, without re-reading (documented exception). -/
def add_edges (g : GraphState) (schema_name : String) (edges : List Edge) :
    Except Err GraphState :=
  match Database.add_edges g.store schema_name (edges.map fun e =>
      (e.source.id, e.source_schema_name, e.target.id, e.target_schema_name,
        pyDumpsOpt e.properties)) with
  | .error e => .error e
  | .ok st => .ok { g with store := st, edges := g.edges ++ edges }

/-- `Graph.update_node`: gateway update, fresh `get_node` re-read,
`_create_node` on the re-read row (`None` row → `TypeError` from
`node_row["id"]`), then `self.nodes[updated_node.id] = updated_node`. -/
def update_node (g : GraphState) (node : Node) : Except Err GraphState :=
  let st := Database.update_node g.store node.schema_name node.id node.body
  match Database.get_node st node.schema_name node.id with
  | none => .error .typeError
  | some row =>
    let updated := _create_node node.schema_name row
    .ok { g with store := st, nodes := dictInsert updated.id updated g.nodes }

/-- Python's `for e in lst: if p(e): lst.remove(e)` over a list of
distinct objects: `remove` takes out the current element (`Edge.__eq__`
with a single argument returns a falsy `None`, so `remove` matches by
identity), and the index advancing past the shifted successor skips the
element right after each removal. -/
def pyRemoveEach (p : Edge → Bool) : List Edge → List Edge
  | [] => []
  | [e] => if p e then [] else [e]
  | e :: f :: rest =>
    if p e then f :: pyRemoveEach p rest else e :: pyRemoveEach p (f :: rest)

/-- `Graph.update_edge`: gateway update, fresh `get_edge` re-read,
`_create_edge` on the re-read row, removal of every cached edge whose
endpoints match the updated edge (the mutating-while-iterating loop),
then append of the freshly constructed edge. -/
def update_edge (g : GraphState) (edge : Edge) : Except Err GraphState :=
  let st := Database.update_edge g.store edge.schema_name edge.source.id
    edge.target.id edge.properties
  match Database.get_edge st edge.schema_name edge.source.id edge.target.id with
  | none => .error .typeError
  | some row =>
    match _create_edge g.nodes edge.schema_name row with
    | .error e => .error e
    | .ok updated =>
      .ok { g with store := st
                   edges := pyRemoveEach
                     (fun el => el.eqNodes updated.source updated.target) g.edges
                     ++ [updated] }

/-- `Graph.delete_node`: gateway delete, then `self.nodes.pop(node.id)`
(`KeyError` when the id is not cached; the store delete has already
been committed in that case). -/
def delete_node (g : GraphState) (node : Node) : Except Err GraphState :=
  let st := Database.delete_node g.store node.schema_name node.id
  match dictLookup node.id g.nodes with
  | none => .error .keyError
  | some _ => .ok { g with store := st, nodes := dictRemove node.id g.nodes }

/-- `Graph.delete_edge`: gateway delete, then the mutating-while-
iterating removal of cached edges whose endpoints match the argument. -/
def delete_edge (g : GraphState) (edge : Edge) : GraphState :=
  { g with store := Database.delete_edge g.store edge.schema_name
             edge.source.id edge.target.id
           edges := pyRemoveEach (fun el => edge.eqNodes el.source el.target) g.edges }

end Graph

/-! ## Statement construction (`database.py` text/parameter split)

Each `*_stmt` definition records the exact SQL text the gateway hands
to the engine together with the list of values bound as parameters
(the second argument of `cursor.execute`).  The `sql/*.sql` template
files are not in the sources; their texts below are modelled from the
spec with `\x7b\x7bschema_name\x7d\x7d` already substituted (the
substitution `_read_sql_file` performs), using `?` for bound
placeholders.  Which caller data lands in the text and which in the
parameter list is taken from `database.py` itself. -/

/-- A statement as issued to the engine: text plus bound parameters. -/
structure Stmt where
  text : String
  params : List String
  deriving DecidableEq

/-- Modelled from the spec: `sql/insert-node.sql`. -/
def insertNodeSql (schema_name : String) : String :=
  "INSERT INTO " ++ schema_name ++ "_nodes (id, body) VALUES (?, ?);"

/-- Modelled from the spec: `sql/update-node.sql`. -/
def updateNodeSql (schema_name : String) : String :=
  "UPDATE " ++ schema_name ++ "_nodes SET body = ? WHERE id = ?;"

/-- Modelled from the spec: `sql/delete-node.sql`. -/
def deleteNodeSql (schema_name : String) : String :=
  "DELETE FROM " ++ schema_name ++ "_nodes WHERE id = ?;"

/-- Modelled from the spec: `sql/delete-nodes.sql`, with the
`\x7b\x7bnode_ids\x7d\x7d` placeholder substituted by
`Database.delete_nodes` itself. -/
def deleteNodesSql (schema_name node_ids : String) : String :=
  "DELETE FROM " ++ schema_name ++ "_nodes WHERE id IN " ++ node_ids ++ ";"

/-- Modelled from the spec: `sql/select-node.sql`. -/
def selectNodeSql (schema_name : String) : String :=
  "SELECT id, body FROM " ++ schema_name ++ "_nodes WHERE id = ?;"

/-- Modelled from the spec: `sql/select-nodes.sql`, with the
`\x7b\x7bparams\x7d\x7d` placeholder substituted by
`Database.get_nodes` itself. -/
def selectNodesSql (schema_name params : String) : String :=
  "SELECT id, body FROM " ++ schema_name ++ "_nodes WHERE " ++ params ++ ";"

/-- Modelled from the spec: `sql/insert-edge.sql`. -/
def insertEdgeSql (schema_name : String) : String :=
  "INSERT INTO " ++ schema_name
    ++ "_edges (source, source_schema, target, target_schema, properties) VALUES (?, ?, ?, ?, ?);"

/-- Modelled from the spec: `sql/update-edge.sql`. -/
def updateEdgeSql (schema_name : String) : String :=
  "UPDATE " ++ schema_name ++ "_edges SET properties = ? WHERE source = ? AND target = ?;"

/-- Modelled from the spec: `sql/delete-edge.sql`. -/
def deleteEdgeSql (schema_name : String) : String :=
  "DELETE FROM " ++ schema_name ++ "_edges WHERE source = ? AND target = ?;"

/-- Modelled from the spec: `sql/select-edge.sql`. -/
def selectEdgeSql (schema_name : String) : String :=
  "SELECT * FROM " ++ schema_name ++ "_edges WHERE source = ? AND target = ?;"

/-- Modelled from the spec: `sql/select-edges.sql`, with the
`\x7b\x7bparams\x7d\x7d` placeholder substituted by
`Database.get_edges` itself. -/
def selectEdgesSql (schema_name params : String) : String :=
  "SELECT * FROM " ++ schema_name ++ "_edges WHERE " ++ params ++ ";"

/-- `str.join`: `sep.join(parts)`. -/
def pyJoin (sep : String) : List String → String
  | [] => ""
  | [p] => p
  | p :: ps => p ++ sep ++ pyJoin sep ps

/-- `str.lower` on one character (ASCII, which covers the operator
strings involved). -/
def lowerChar (c : Char) : Char :=
  if 'A' ≤ c ∧ c ≤ 'Z' then Char.ofNat (c.toNat + 32) else c

/-- `operator.lower()`. -/
def pyLower (s : String) : String :=
  ⟨s.data.map lowerChar⟩

/-- `ALLOWED_OPERATORS` from `database.py` (a set; only membership is
used). -/
def ALLOWED_OPERATORS : List String := ["and", "not", "or"]

/-- One entry of `json.dumps` output with Python's default separators:
`"key": value`. -/
def dumpEntry (kv : String × String) : List Char :=
  '\x22' :: kv.1.data ++ '\x22' :: ':' :: '\x20' :: kv.2.data

/-- Pieces joined by `", "`, the default `json.dumps` item separator. -/
def joinComma : List (List Char) → List Char
  | [] => []
  | [p] => p
  | p :: ps => p ++ ',' :: '\x20' :: joinComma ps

/-- `json.dumps` of a (non-empty in use) mapping with default
separators: `\x7b"k1": v1, "k2": v2\x7d`.  Values are their serialized
text in this model. -/
def dumpBody (body : List (String × String)) : List Char :=
  '\x7b' :: joinComma (body.map dumpEntry) ++ ['\x7d']

/-- Python `s.replace(ab, c)` for a two-character pattern `ab` and a
one-character replacement `c`: scan left to right, replace each
non-overlapping occurrence, continue after the replacement. -/
def rep2 (a b c : Char) : List Char → List Char
  | [] => []
  | [x] => [x]
  | x :: y :: rest =>
    if x = a ∧ y = b then c :: rep2 a b c rest
    else x :: rep2 a b c (y :: rest)

/-- The text of the containment fragment up to the opening quote of
the LIKE pattern (the format string of `Database.get_nodes` splits
exactly there). -/
def likePrefix : List Char :=
  "json_extract(body, \x22$\x22) LIKE \x27".data

/-- The body-containment fragment of `Database.get_nodes` before the
clean-up replaces: `json_extract(body, "$") LIKE '%<dumps>%'`. -/
def jsonSearchRaw (body : List (String × String)) : List Char :=
  likePrefix ++ '%' :: dumpBody body ++ '%' :: '\x27' :: []

/-- The fragment after the three `replace` calls of
`Database.get_nodes`: `"%\x7b" → "%"`, then `"\x7d%" → "%"`, then
`": " → ":"`. -/
def jsonSearch (body : List (String × String)) : List Char :=
  rep2 ':' '\x20' ':' (rep2 '\x7d' '%' '%' (rep2 '%' '\x7b' '%' (jsonSearchRaw body)))

/-- One mapping entry with the `": "` separator compressed to `":"`. -/
def strippedEntry (kv : String × String) : List Char :=
  '\x22' :: kv.1.data ++ '\x22' :: ':' :: kv.2.data

/-- What the `get_nodes` containment fragment actually is after the
three replaces (proved in `c3_body_filter_serialization`): the LIKE
pattern holds the entries brace-less with `":"` separators, but still
joined by `", "` — the space after each comma survives. -/
def jsonSearchExpected (body : List (String × String)) : List Char :=
  likePrefix ++ '%' :: joinComma (body.map strippedEntry) ++ '%' :: '\x27' :: []

/-- Entries joined by a bare `","`. -/
def joinCommaTight : List (List Char) → List Char
  | [] => []
  | [p] => p
  | p :: ps => p ++ ',' :: joinCommaTight ps

/-- The containment fragment the claim describes, following the spec's
words: a canonical compact serialization with no spaces after `':'`
*or* `','` and no surrounding braces, wrapped in `LIKE '%…%'`.  Defined
for comparison with the fragment the code builds (`jsonSearch`). -/
def specCompactSearch (body : List (String × String)) : List Char :=
  likePrefix ++ '%' :: joinCommaTight (body.map strippedEntry) ++ '%' :: '\x27' :: []

/-- Keys and values free of the characters the clean-up replaces act
on (`':'`, `'%'`, `'\x7d'`), so each replace touches only the intended
occurrences. -/
def cleanKV (kv : String × String) : Prop :=
  (∀ u ∈ kv.1.data, u ≠ ':' ∧ u ≠ '%' ∧ u ≠ '\x7d') ∧
  (∀ u ∈ kv.2.data, u ≠ ':' ∧ u ≠ '%' ∧ u ≠ '\x7d')

instance (kv : String × String) : Decidable (cleanKV kv) := by
  unfold cleanKV
  infer_instance

namespace Database

/-- `Database.add_node`'s statement: both caller values bound. -/
def add_node_stmt (schema_name node_id node_body : String) : Stmt :=
  ⟨insertNodeSql schema_name, [node_id, node_body]⟩

/-- `Database.update_node`'s statement. -/
def update_node_stmt (schema_name node_id node_body : String) : Stmt :=
  ⟨updateNodeSql schema_name, [node_body, node_id]⟩

/-- `Database.delete_node`'s statement. -/
def delete_node_stmt (schema_name node_id : String) : Stmt :=
  ⟨deleteNodeSql schema_name, [node_id]⟩

/-- `Database.get_node`'s statement. -/
def get_node_stmt (schema_name node_id : String) : Stmt :=
  ⟨selectNodeSql schema_name, [node_id]⟩

/-- `Database.add_edge`'s statement: all five caller values bound. -/
def add_edge_stmt (schema_name source_id target_id : String)
    (source_schema_name target_schema_name : Option String)
    (properties : Option String) : Stmt :=
  ⟨insertEdgeSql schema_name,
    [source_id, pyOrDefault source_schema_name schema_name,
      target_id, pyOrDefault target_schema_name schema_name,
      pyDumpsOpt properties]⟩

/-- `Database.update_edge`'s statement. -/
def update_edge_stmt (schema_name source_id target_id : String)
    (properties : Option String) : Stmt :=
  ⟨updateEdgeSql schema_name, [pyDumpsOpt properties, source_id, target_id]⟩

/-- `Database.delete_edge`'s statement. -/
def delete_edge_stmt (schema_name source_id target_id : String) : Stmt :=
  ⟨deleteEdgeSql schema_name, [source_id, target_id]⟩

/-- `Database.get_edge`'s statement. -/
def get_edge_stmt (schema_name source_id target_id : String) : Stmt :=
  ⟨selectEdgeSql schema_name, [source_id, target_id]⟩

/-- `Database.delete_nodes`: every id is wrapped in single quotes and
interpolated into an `IN (...)` list in the statement text; nothing is
bound as a parameter. -/
def delete_nodes_stmt (schema_name : String) (node_ids : List String) : Stmt :=
  ⟨deleteNodesSql schema_name
      ("(" ++ pyJoin ", " (node_ids.map fun n => "\x27" ++ n ++ "\x27") ++ ")"),
    []⟩

/-- `Database.get_nodes`: raises `DisallowedOperatorError` when the
lower-cased operator is not allow-listed, before any statement text is
assembled; otherwise builds the predicate fragments (`id` equality
interpolated as a quoted literal; body containment via `jsonSearch`),
joins them with the operator, substitutes them into the statement text
and executes with no bound parameters.  Python truthiness guards each
fragment: `None` and the empty string/mapping contribute nothing. -/
def get_nodes_stmt (schema_name : String) (node_id : Option String)
    (node_body : List (String × String)) (operator : String) : Except Err Stmt :=
  if ALLOWED_OPERATORS.contains (pyLower operator) then
    let ps₀ : List String :=
      match node_id with
      | none => []
      | some nid => if nid = "" then [] else ["id = \x27" ++ nid ++ "\x27"]
    let ps₁ : List String :=
      if node_body.isEmpty then ps₀ else ps₀ ++ [String.mk (jsonSearch node_body)]
    .ok ⟨selectNodesSql schema_name (pyJoin (" " ++ operator ++ " ") ps₁), []⟩
  else
    .error .disallowedOperator

/-- `str(dict)` as interpolated by `Database.get_edges` for the
`properties` filter (values rendered as their model text). -/
def pyStrDict (d : List (String × String)) : String :=
  "\x7b" ++ pyJoin ", " (d.map fun kv => "\x27" ++ kv.1 ++ "\x27: " ++ kv.2) ++ "\x7d"

/-- `Database.get_edges`: each supplied value is interpolated into its
predicate fragment (note the leading space of each fragment, as in the
source), the fragments are OR-joined, substituted into the statement
text, and the statement executes with no bound parameters. -/
def get_edges_stmt (schema_name : String) (source_id target_id : Option String)
    (properties : Option (List (String × String))) : Stmt :=
  let ps : List String :=
    (match source_id with
     | none => []
     | some s => if s = "" then [] else [" \x22source\x22 = \x27" ++ s ++ "\x27"])
    ++ (match target_id with
        | none => []
        | some t => if t = "" then [] else [" \x22target\x22 = \x27" ++ t ++ "\x27"])
    ++ (match properties with
        | none => []
        | some d => if d.isEmpty then []
                    else [" \x22properties\x22 = \x27" ++ pyStrDict d ++ "\x27"])
  ⟨selectEdgesSql schema_name (pyJoin " OR " ps), []⟩

/-- `Database.execute_sql`: `complete` is the engine's
`sqlite3.complete_statement` verdict on the text, `engine` the engine's
response to executing it.  An incomplete statement raises
`IncompleteStatementError`; an engine error is caught, printed and
discarded, and the function falls through to return `None`; on success
`fetchall` is returned only when `"select"` occurs in the lower-cased
text. -/
def execute_sql (sql_text : String) (complete : Bool)
    (engine : Except String (List (List String))) :
    Except Err (Option (List (List String))) :=
  if complete then
    match engine with
    | .error _ => .ok none
    | .ok rows =>
      .ok (if containsSub "select".data (pyLower sql_text).data then some rows else none)
  else
    .error .incompleteStatement

/-- `Database.execute_sql_script`: identical control flow to
`execute_sql` with `executescript` in place of `execute` (the engine
error is again printed and discarded). -/
def execute_sql_script (sql_text : String) (complete : Bool)
    (engine : Except String (List (List String))) :
    Except Err (Option (List (List String))) :=
  if complete then
    match engine with
    | .error _ => .ok none
    | .ok rows =>
      .ok (if containsSub "select".data (pyLower sql_text).data then some rows else none)
  else
    .error .incompleteStatement

end Database

/-! ## Concrete instances used to evaluate the model -/

/-- The value of a successful graph mutation, with a fallback for the
error case (used only to name concrete post-states). -/
def unwrapOr (g : GraphState) : Except Err GraphState → GraphState
  | .ok g' => g'
  | .error _ => g

/-- `Node("s", "a", ...)` of the base example store. -/
def nodeA : Node := ⟨"s", "a", "1"⟩

/-- `Node("s", "b", ...)` of the base example store. -/
def nodeB : Node := ⟨"s", "b", "2"⟩

/-- A populated Graph View: schema `s`, nodes `a` and `b`, one edge
`a → b`, exactly mirroring its backing store. -/
def gBase : GraphState :=
  ⟨⟨["s_nodes", "s_edges"], [⟨"s", "a", "1"⟩, ⟨"s", "b", "2"⟩],
      [⟨"s", "a", "s", "b", "s", "null"⟩]⟩,
    ["s"], [("a", nodeA), ("b", nodeB)],
    [Edge.init "s" nodeA nodeB none none none]⟩

/-- A fresh node to insert. -/
def nodeC : Node := ⟨"s", "c", "3"⟩

/-- `gBase` after `Graph.add_node "s" nodeC`. -/
def gAddNode : GraphState := unwrapOr gBase (Graph.add_node gBase "s" nodeC)

/-- `nodeA` with an updated body. -/
def nodeA5 : Node := ⟨"s", "a", "5"⟩

/-- `gBase` after `Graph.update_node nodeA5`. -/
def gUpdNode : GraphState := unwrapOr gBase (Graph.update_node gBase nodeA5)

/-- An `a → b` edge carrying properties. -/
def edgeAB9 : Edge := Edge.init "s" nodeA nodeB none none (some "9")

/-- `gBase` after `Graph.add_edge edgeAB9`. -/
def gAddEdge : GraphState := unwrapOr gBase (Graph.add_edge gBase edgeAB9)

/-- `gBase` after `Graph.update_edge edgeAB9`. -/
def gUpdEdge : GraphState := unwrapOr gBase (Graph.update_edge gBase edgeAB9)

/-- `gBase` after `Graph.delete_node nodeA`. -/
def gDelNode : GraphState := unwrapOr gBase (Graph.delete_node gBase nodeA)

/-- An empty Graph View over a store holding only schema `s`'s empty
tables. -/
def gEmptyS : GraphState := ⟨⟨["s_nodes", "s_edges"], [], []⟩, ["s"], [], []⟩

/-- A caller-supplied node object whose `schema_name` (`"t"`) differs
from the schema argument (`"s"`) of the bulk insert it is passed to. -/
def nodeT : Node := ⟨"t", "n", "1"⟩

/-- `gEmptyS` after `Graph.add_nodes "s" [nodeT]`. -/
def gSynth : GraphState := unwrapOr gEmptyS (Graph.add_nodes gEmptyS "s" [nodeT])

/-- A Graph View caching one node `n1` of schema `test`. -/
def gCache : GraphState :=
  ⟨⟨["test_nodes", "test_edges"], [⟨"test", "n1", "1"⟩], []⟩,
    ["test"], [("n1", ⟨"test", "n1", "1"⟩)], []⟩

/-- `gCache` after `Graph.delete_node` of `n1`. -/
def gAfterDelete : GraphState :=
  unwrapOr gCache (Graph.delete_node gCache ⟨"test", "n1", "1"⟩)

/-- A store whose edge table holds an `a → b` row while its node table
is empty: both edge endpoints are dangling. -/
def storeDangling : Store :=
  ⟨["s_nodes", "s_edges"], [], [⟨"s", "a", "s", "b", "s", "null"⟩]⟩

/-- A store whose catalog holds the tables of the underscore-bearing
schema `a_b`. -/
def storeAB : Store := ⟨["a_b_nodes", "a_b_edges"], [], []⟩

/-- An `a → b` edge without properties. -/
def edgeDup1 : Edge := Edge.init "s" nodeA nodeB none none none

/-- A second, distinct `a → b` edge (different properties, same
endpoint ids). -/
def edgeDup2 : Edge := Edge.init "s" nodeA nodeB none none (some "7")

/-- A Graph View whose edge cache holds two adjacent edges with equal
endpoint ids. -/
def gDup : GraphState :=
  ⟨⟨["s_nodes", "s_edges"], [⟨"s", "a", "1"⟩, ⟨"s", "b", "2"⟩], []⟩,
    ["s"], [("a", nodeA), ("b", nodeB)], [edgeDup1, edgeDup2]⟩

/-- The statement `get_nodes("s", node_id="a")` issues. -/
def stGetNodesA : Stmt :=
  ⟨"SELECT id, body FROM s_nodes WHERE id = \x27a\x27;", []⟩

/-! ## Helper lemmas -/

theorem dictLookup_dictInsert_self (k : String) (v : Node) (l : List (String × Node)) :
    dictLookup k (dictInsert k v l) = some v := by
  induction l with
  | nil => simp [dictInsert, dictLookup]
  | cons p rest ih =>
    obtain ⟨k', v'⟩ := p
    by_cases h : k' == k
    · simp [dictInsert, h, dictLookup]
    · simp [dictInsert, h, dictLookup, ih]

theorem dictLookup_eq_none_of_not_mem (k : String) (l : List (String × Node))
    (h : k ∉ l.map Prod.fst) : dictLookup k l = none := by
  induction l with
  | nil => rfl
  | cons p rest ih =>
    obtain ⟨k', v'⟩ := p
    simp only [List.map_cons, List.mem_cons] at h
    push_neg at h
    have hk : (k' == k) = false := by
      simp [beq_eq_false_iff_ne]
      exact fun hc => h.1 hc.symm
    simp [dictLookup, hk, ih h.2]

theorem dictLookup_dictRemove_self (k : String) (l : List (String × Node))
    (h : (l.map Prod.fst).Nodup) : dictLookup k (dictRemove k l) = none := by
  induction l with
  | nil => rfl
  | cons p rest ih =>
    obtain ⟨k', v'⟩ := p
    simp only [List.map_cons, List.nodup_cons] at h
    by_cases hk : k' == k
    · have hkeq : k' = k := by simpa [beq_iff_eq] using hk
      simp only [dictRemove, hk, if_true]
      exact dictLookup_eq_none_of_not_mem k rest (hkeq ▸ h.1)
    · simp [dictRemove, hk, dictLookup, ih h.2]

theorem get_node_some {st : Store} {schema_name node_id : String} {r : NodeRow}
    (h : Database.get_node st schema_name node_id = some r) :
    r.schema = schema_name ∧ r.id = node_id := by
  have := List.find?_some h
  simpa [Bool.and_eq_true, beq_iff_eq] using this

@[simp] theorem pyRemoveEach_nil (p : Edge → Bool) : Graph.pyRemoveEach p [] = [] := rfl

theorem pyRemoveEach_single (p : Edge → Bool) (e : Edge) :
    Graph.pyRemoveEach p [e] = if p e then [] else [e] := rfl

theorem pyRemoveEach_cons₂ (p : Edge → Bool) (e f : Edge) (rest : List Edge) :
    Graph.pyRemoveEach p (e :: f :: rest) =
      if p e then f :: Graph.pyRemoveEach p rest
      else e :: Graph.pyRemoveEach p (f :: rest) := rfl

theorem pyRemoveEach_sublist (p : Edge → Bool) :
    (l : List Edge) → (Graph.pyRemoveEach p l).Sublist l
  | [] => by simp
  | [e] => by
    rw [pyRemoveEach_single]
    by_cases h : p e <;> simp [h]
  | e :: f :: rest => by
    rw [pyRemoveEach_cons₂]
    by_cases h : p e
    · simpa [h] using ((pyRemoveEach_sublist p rest).cons₂ f).cons e
    · simpa [h] using (pyRemoveEach_sublist p (f :: rest)).cons₂ e

theorem update_node_of_absent {st : Store} {schema_name node_id : String}
    (node_body : String)
    (h : Database.get_node st schema_name node_id = none) :
    Database.update_node st schema_name node_id node_body = st := by
  have hnone := List.find?_eq_none.mp h
  have hmap : st.nodeRows.map (fun r =>
      if r.schema == schema_name && r.id == node_id then { r with body := node_body }
      else r) = st.nodeRows := by
    have h2 : st.nodeRows.map (fun r =>
        if r.schema == schema_name && r.id == node_id then { r with body := node_body }
        else r) = st.nodeRows.map id :=
      List.map_congr_left (fun r hr => by simp [hnone r hr])
    simpa using h2
  cases st with
  | mk tables nodeRows edgeRows =>
    unfold Database.update_node
    simp only at hmap ⊢
    rw [hmap]

/-! ## Claims -/

/-- C4: `get_nodes` raises `DisallowedOperatorError` exactly when the
lower-cased operator is outside `ALLOWED_OPERATORS`; for an allow-listed
operator no such error is raised.  The error is returned before any
statement is assembled: the error branch of `Database.get_nodes_stmt`
produces no statement and touches no storage. -/
theorem c4_disallowed_operator (schema_name : String) (node_id : Option String)
    (node_body : List (String × String)) (operator : String) :
    Database.get_nodes_stmt schema_name node_id node_body operator
        = .error Err.disallowedOperator
      ↔ ALLOWED_OPERATORS.contains (pyLower operator) = false := by
  unfold Database.get_nodes_stmt
  by_cases h : ALLOWED_OPERATORS.contains (pyLower operator) <;> simp [h]

/-- C5: the storage gateway's `get_node` returns an absent value for an
id with no stored node (here: right after `delete_node` committed the
removal), but the Graph View's `get_node` raises `KeyError` on the
absent id — `self.nodes[node_id]` subscripts the dict before the
truthiness check its docstring's `Node | None` contract relies on. -/
theorem c5_get_node_absent :
    Graph.delete_node gCache ⟨"test", "n1", "1"⟩ = .ok gAfterDelete ∧
    Database.get_node gAfterDelete.store "test" "n1" = none ∧
    Graph.get_node gAfterDelete "n1" = .error Err.keyError := by decide

/-- C6: a complete statement whose execution fails in the engine is
caught, printed and discarded by `execute_sql` and
`execute_sql_script`: both return `None` (`.ok none`), surfacing
nothing of the engine error to the caller. -/
theorem c6_engine_error_swallowed :
    Database.execute_sql "SELECT * FROM missing_table;" true
        (.error "no such table: missing_table") = .ok none ∧
    Database.execute_sql_script "SELECT * FROM missing_table;" true
        (.error "no such table: missing_table") = .ok none := by decide

/-- C7: constructing the Graph View over a store whose edge table
references node ids absent from the node tables crashes with a plain
`KeyError` from the node-map subscript inside `_create_edge` — not a
distinct consistency-fault error kind. -/
theorem c7_dangling_edge_keyerror :
    Graph._create_edge [] "s" ⟨"s", "a", "s", "b", "s", "null"⟩ = .error Err.keyError ∧
    Graph.init storeDangling = .error Err.keyError := by decide

/-- C9: `delete_edge` removes matching cached edges with a
`for`-loop that mutates the list it iterates, which skips the element
after each removal: with two adjacent matching edges the second
survives, so the cache still holds an edge whose endpoint ids equal the
deleted edge's. -/
theorem c9_delete_edge_skips_adjacent :
    (Graph.delete_edge gDup edgeDup1).edges = [edgeDup2] ∧
    edgeDup1.eqNodes edgeDup2.source edgeDup2.target = true := by decide

/-- C10: updating a node whose id is absent from the store raises: the
gateway-level `update_node` completes as a no-op (zero rows affected,
store unchanged), but the Graph View's post-write re-read returns no
row and subscripting it (`node_row["id"]`) raises `TypeError`. -/
theorem c10_update_absent_node_raises (g : GraphState) (node : Node)
    (h : Database.get_node g.store node.schema_name node.id = none) :
    Graph.update_node g node = .error Err.typeError ∧
    Database.update_node g.store node.schema_name node.id node.body = g.store := by
  have hst := update_node_of_absent node.body h
  refine ⟨?_, hst⟩
  unfold Graph.update_node
  simp only [hst, h]

/-- Witness for C10 at a concrete input: the empty store holds no node
`x`, `update_node` raises `TypeError`, and the gateway call alone
leaves the store unchanged. -/
theorem c10_update_absent_node_raises_witness :
    Graph.update_node gEmptyS ⟨"s", "x", "9"⟩ = .error Err.typeError ∧
    Database.update_node gEmptyS.store "s" "x" "9" = gEmptyS.store :=
  c10_update_absent_node_raises gEmptyS ⟨"s", "x", "9"⟩ (by decide)

/-- C1 (amended): every single-row mutating Graph View call that
succeeds updates the cache from the store re-read performed after the
write — `add_node`/`update_node` cache exactly the `Node` constructed
from the fresh `get_node` row, `add_edge`/`update_edge` append exactly
the `Edge` constructed from the fresh `get_edge` row, and the delete
paths only remove cached entries, never synthesizing any — while the
bulk paths `add_nodes` and `add_edges` are the two exceptions that
cache the caller-supplied objects directly. -/
theorem c1_mutations_refresh_from_store :
    (∀ (g : GraphState) (schema_name : String) (n : Node) (g' : GraphState),
      Graph.add_node g schema_name n = .ok g' →
      ∃ row, Database.get_node g'.store schema_name n.id = some row ∧
        dictLookup n.id g'.nodes = some (Graph._create_node schema_name row)) ∧
    (∀ (g : GraphState) (n : Node) (g' : GraphState),
      Graph.update_node g n = .ok g' →
      ∃ row, Database.get_node g'.store n.schema_name n.id = some row ∧
        dictLookup n.id g'.nodes = some (Graph._create_node n.schema_name row)) ∧
    (∀ (g : GraphState) (e : Edge) (g' : GraphState),
      Graph.add_edge g e = .ok g' →
      ∃ row e', Database.get_edge g'.store e.schema_name e.source.id e.target.id = some row ∧
        Graph._create_edge g.nodes e.schema_name row = .ok e' ∧
        g'.edges = g.edges ++ [e']) ∧
    (∀ (g : GraphState) (e : Edge) (g' : GraphState),
      Graph.update_edge g e = .ok g' →
      ∃ row e', Database.get_edge g'.store e.schema_name e.source.id e.target.id = some row ∧
        Graph._create_edge g.nodes e.schema_name row = .ok e' ∧
        g'.edges.getLast? = some e') ∧
    (∀ (g : GraphState) (n : Node) (g' : GraphState),
      (g.nodes.map Prod.fst).Nodup →
      Graph.delete_node g n = .ok g' →
      dictLookup n.id g'.nodes = none) ∧
    (∀ (g : GraphState) (e : Edge),
      ((Graph.delete_edge g e).edges).Sublist g.edges) := by
  refine ⟨?_, ?_, ?_, ?_, ?_, ?_⟩
  · intro g schema_name n g' h
    unfold Graph.add_node at h
    split at h
    · cases h
    · split at h
      · cases h
      · rename_i st _ row hrow
        have hg := Except.ok.inj h
        subst hg
        refine ⟨row, hrow, ?_⟩
        have hid := (get_node_some hrow).2
        rw [hid]
        exact dictLookup_dictInsert_self n.id (Graph._create_node schema_name row) g.nodes
  · intro g n g' h
    unfold Graph.update_node at h
    dsimp only at h
    split at h
    · cases h
    · rename_i row hrow
      have hg := Except.ok.inj h
      subst hg
      refine ⟨row, hrow, ?_⟩
      have hid := (get_node_some hrow).2
      show dictLookup n.id (dictInsert (Graph._create_node n.schema_name row).id
        (Graph._create_node n.schema_name row) g.nodes) = _
      have : (Graph._create_node n.schema_name row).id = n.id := hid
      rw [this]
      exact dictLookup_dictInsert_self n.id (Graph._create_node n.schema_name row) g.nodes
  · intro g e g' h
    unfold Graph.add_edge at h
    split at h
    · cases h
    · split at h
      · cases h
      · rename_i st _ row hrow
        split at h
        · cases h
        · rename_i e' hcreate
          have hg := Except.ok.inj h
          subst hg
          exact ⟨row, e', hrow, hcreate, rfl⟩
  · intro g e g' h
    unfold Graph.update_edge at h
    dsimp only at h
    split at h
    · cases h
    · rename_i row hrow
      split at h
      · cases h
      · rename_i e' hcreate
        have hg := Except.ok.inj h
        subst hg
        exact ⟨row, e', hrow, hcreate, List.getLast?_concat _⟩
  · intro g n g' hnodup h
    unfold Graph.delete_node at h
    split at h
    · cases h
    · have hg := Except.ok.inj h
      subst hg
      exact dictLookup_dictRemove_self n.id g.nodes hnodup
  · intro g e
    exact pyRemoveEach_sublist _ g.edges

/-- Witness for C1 at concrete inputs: each single-row mutation of
`gBase` succeeds and its hypothesis is discharged by evaluation. -/
theorem c1_mutations_refresh_from_store_witness :
    (∃ row, Database.get_node gAddNode.store "s" "c" = some row ∧
      dictLookup "c" gAddNode.nodes = some (Graph._create_node "s" row)) ∧
    (∃ row, Database.get_node gUpdNode.store "s" "a" = some row ∧
      dictLookup "a" gUpdNode.nodes = some (Graph._create_node "s" row)) ∧
    (∃ row e', Database.get_edge gAddEdge.store "s" "a" "b" = some row ∧
      Graph._create_edge gBase.nodes "s" row = .ok e' ∧
      gAddEdge.edges = gBase.edges ++ [e']) ∧
    (∃ row e', Database.get_edge gUpdEdge.store "s" "a" "b" = some row ∧
      Graph._create_edge gBase.nodes "s" row = .ok e' ∧
      gUpdEdge.edges.getLast? = some e') ∧
    (dictLookup "a" gDelNode.nodes = none) ∧
    ((Graph.delete_edge gBase edgeAB9).edges).Sublist gBase.edges := by
  refine ⟨?_, ?_, ?_, ?_, ?_, ?_⟩
  · exact c1_mutations_refresh_from_store.1 gBase "s" nodeC gAddNode (by decide)
  · exact c1_mutations_refresh_from_store.2.1 gBase nodeA5 gUpdNode (by decide)
  · exact c1_mutations_refresh_from_store.2.2.1 gBase edgeAB9 gAddEdge (by decide)
  · exact c1_mutations_refresh_from_store.2.2.2.1 gBase edgeAB9 gUpdEdge (by decide)
  · exact c1_mutations_refresh_from_store.2.2.2.2.1 gBase nodeA gDelNode (by decide) (by decide)
  · exact c1_mutations_refresh_from_store.2.2.2.2.2 gBase edgeAB9

/-- C1 counterexample: `add_nodes` is a second exception besides
`add_edges` — the bulk node insert succeeds, but the cache entry is the
caller-supplied `Node` object (schema `t`) and differs from the `Node`
a fresh re-read of the just-written row would construct (schema `s`). -/
theorem c1_add_nodes_counterexample :
    Graph.add_nodes gEmptyS "s" [nodeT] = .ok gSynth ∧
    dictLookup "n" gSynth.nodes = some nodeT ∧
    Database.get_node gSynth.store "s" "n" = some ⟨"s", "n", "1"⟩ ∧
    Graph._create_node "s" ⟨"s", "n", "1"⟩ ≠ nodeT := by decide

/-- C2 (amended): the single-row gateway operations bind every
caller-supplied value as a statement parameter — their statement text
is a function of the schema name alone — but `get_nodes` (id and body
predicates), `get_edges` (source, target and properties predicates) and
`delete_nodes` (the id list) interpolate the caller-supplied values
into the statement text and bind no parameters at all. -/
theorem c2_parameter_binding :
    (∀ s i₁ b₁ i₂ b₂, (Database.add_node_stmt s i₁ b₁).text
        = (Database.add_node_stmt s i₂ b₂).text) ∧
    (∀ s i b, (Database.add_node_stmt s i b).params = [i, b]) ∧
    (∀ s i₁ b₁ i₂ b₂, (Database.update_node_stmt s i₁ b₁).text
        = (Database.update_node_stmt s i₂ b₂).text) ∧
    (∀ s i b, (Database.update_node_stmt s i b).params = [b, i]) ∧
    (∀ s i₁ i₂, (Database.delete_node_stmt s i₁).text = (Database.delete_node_stmt s i₂).text) ∧
    (∀ s i, (Database.delete_node_stmt s i).params = [i]) ∧
    (∀ s i₁ i₂, (Database.get_node_stmt s i₁).text = (Database.get_node_stmt s i₂).text) ∧
    (∀ s i, (Database.get_node_stmt s i).params = [i]) ∧
    (∀ s a₁ b₁ ss₁ ts₁ p₁ a₂ b₂ ss₂ ts₂ p₂,
      (Database.add_edge_stmt s a₁ b₁ ss₁ ts₁ p₁).text
        = (Database.add_edge_stmt s a₂ b₂ ss₂ ts₂ p₂).text) ∧
    (∀ s a b ss ts p, (Database.add_edge_stmt s a b ss ts p).params
        = [a, pyOrDefault ss s, b, pyOrDefault ts s, pyDumpsOpt p]) ∧
    (∀ s a₁ b₁ p₁ a₂ b₂ p₂, (Database.update_edge_stmt s a₁ b₁ p₁).text
        = (Database.update_edge_stmt s a₂ b₂ p₂).text) ∧
    (∀ s a b p, (Database.update_edge_stmt s a b p).params = [pyDumpsOpt p, a, b]) ∧
    (∀ s a₁ b₁ a₂ b₂, (Database.delete_edge_stmt s a₁ b₁).text
        = (Database.delete_edge_stmt s a₂ b₂).text) ∧
    (∀ s a b, (Database.delete_edge_stmt s a b).params = [a, b]) ∧
    (∀ s a₁ b₁ a₂ b₂, (Database.get_edge_stmt s a₁ b₁).text
        = (Database.get_edge_stmt s a₂ b₂).text) ∧
    (∀ s a b, (Database.get_edge_stmt s a b).params = [a, b]) ∧
    (∀ s i b op st, Database.get_nodes_stmt s i b op = .ok st → st.params = []) ∧
    (∀ s a b p, (Database.get_edges_stmt s a b p).params = []) ∧
    (∀ s ids, (Database.delete_nodes_stmt s ids).params = []) := by
  refine ⟨fun _ _ _ _ _ => rfl, fun _ _ _ => rfl, fun _ _ _ _ _ => rfl, fun _ _ _ => rfl,
    fun _ _ _ => rfl, fun _ _ => rfl, fun _ _ _ => rfl, fun _ _ => rfl,
    fun _ _ _ _ _ _ _ _ _ _ _ => rfl, fun _ _ _ _ _ _ => rfl,
    fun _ _ _ _ _ _ _ => rfl, fun _ _ _ _ => rfl,
    fun _ _ _ _ _ => rfl, fun _ _ _ => rfl, fun _ _ _ _ _ => rfl, fun _ _ _ => rfl,
    ?_, fun _ _ _ _ => rfl, fun _ _ => rfl⟩
  intro s i b op st h
  unfold Database.get_nodes_stmt at h
  split at h
  · have := Except.ok.inj h
    subst this
    rfl
  · cases h

/-- Witness for C2's `get_nodes` conjunct at a concrete input: the
statement built for `get_nodes("s", node_id="a")` binds no
parameters. -/
theorem c2_parameter_binding_witness : stGetNodesA.params = [] :=
  c2_parameter_binding.2.2.2.2.2.2.2.2.2.2.2.2.2.2.2.2.1
    "s" (some "a") [] "or" stGetNodesA (by decide)

/-- C2 counterexample: the operations the claim names do not bind
their caller-supplied values — each value appears quoted inside the
statement text and the bound-parameter list is empty. -/
theorem c2_interpolation_counterexample :
    Database.get_nodes_stmt "s" (some "a") [] "or"
        = .ok ⟨"SELECT id, body FROM s_nodes WHERE id = \x27a\x27;", []⟩ ∧
    Database.get_edges_stmt "s" (some "a") none none
        = ⟨"SELECT * FROM s_edges WHERE  \x22source\x22 = \x27a\x27;", []⟩ ∧
    Database.delete_nodes_stmt "s" ["a", "b"]
        = ⟨"DELETE FROM s_nodes WHERE id IN (\x27a\x27, \x27b\x27);", []⟩ := by decide

theorem containsSub_nil (l : List Char) : containsSub [] l = true := by
  cases l <;> simp [containsSub, leadsWith]

theorem takeBeforeUnderscore_append (l m : List Char) (h : '_' ∉ l) :
    takeBeforeUnderscore (l ++ '_' :: m) = l := by
  induction l with
  | nil => simp [takeBeforeUnderscore]
  | cons c cs ih =>
    simp only [List.mem_cons] at h
    push_neg at h
    have hc : (c == '_') = false := by
      simp only [beq_eq_false_iff_ne]
      exact fun hcc => h.1 hcc.symm
    simp [takeBeforeUnderscore, hc, ih h.2]

/-- C8 (amended): Graph View construction keeps, for each catalog
table name, the portion before its *first* underscore
(`split("_")[0]`), de-duplicated; so the schemas set contains the full
schema name for every schema name made of alphanumerics only (no
underscore) whose tables are in the catalog. -/
theorem c8_schema_enumeration (st : Store) (s : String)
    (halpha : ∀ c ∈ s.data, c.isAlphanum = true)
    (hnodes : (s ++ "_nodes") ∈ st.tables)
    (_hedges : (s ++ "_edges") ∈ st.tables) :
    s ∈ Graph._all_schemas st := by
  have hunder : '_' ∉ s.data := by
    intro hm
    have := halpha '_' hm
    exact absurd this (by decide)
  have hdata : ("_nodes" : String).data = '_' :: ("nodes" : String).data := rfl
  have hsplit : pySplitHead (s ++ "_nodes") = s := by
    unfold pySplitHead
    rw [String.data_append, hdata, takeBeforeUnderscore_append _ _ hunder]
  have hmem1 : (s ++ "_nodes") ∈ Database.get_schemas st none := by
    unfold Database.get_schemas
    exact List.mem_filter.mpr ⟨hnodes, by simpa using containsSub_nil (s ++ "_nodes").data⟩
  have hmem2 : s ∈ (Database.get_schemas st none).map pySplitHead :=
    List.mem_map.mpr ⟨s ++ "_nodes", hmem1, hsplit⟩
  unfold Graph._all_schemas
  exact List.mem_dedup.mpr hmem2

/-- Witness for C8 at a concrete input: schema `abc` (alphanumeric,
both tables in the catalog) is recovered in full. -/
theorem c8_schema_enumeration_witness :
    "abc" ∈ Graph._all_schemas ⟨["abc_nodes", "abc_edges"], [], []⟩ :=
  c8_schema_enumeration ⟨["abc_nodes", "abc_edges"], [], []⟩ "abc"
    (by decide) (by decide) (by decide)

/-- C8 counterexample: the allow-listed schema name `a_b` (alphanumeric
plus underscore) whose two tables are in the catalog is *not* in the
schemas set — `split("_")[0]` truncates it to `a` instead of stripping
exactly the `_nodes`/`_edges` suffix. -/
theorem c8_underscore_counterexample :
    Graph._all_schemas storeAB = ["a"] ∧ "a_b" ∉ Graph._all_schemas storeAB := by decide

theorem rep2_cons_of_ne (a b c x : Char) (l : List Char) (h : x ≠ a) :
    rep2 a b c (x :: l) = x :: rep2 a b c l := by
  cases l with
  | nil => rfl
  | cons y t => simp [rep2, h]

theorem rep2_head_match (a b c : Char) (l : List Char) :
    rep2 a b c (a :: b :: l) = c :: rep2 a b c l := by
  simp [rep2]

theorem rep2_append_of_ne (a b c : Char) (l m : List Char) (h : ∀ u ∈ l, u ≠ a) :
    rep2 a b c (l ++ m) = l ++ rep2 a b c m := by
  induction l with
  | nil => simp
  | cons x xs ih =>
    have hx : x ≠ a := h x (List.mem_cons_self x xs)
    rw [List.cons_append, rep2_cons_of_ne a b c x _ hx,
      ih (fun u hu => h u (List.mem_cons_of_mem x hu)), List.cons_append]

theorem rep2_eq_self (a b c : Char) (l : List Char) (h : ∀ u ∈ l, u ≠ a) :
    rep2 a b c l = l := by
  have := rep2_append_of_ne a b c l [] h
  simpa [rep2] using this

theorem mem_joinComma {u : Char} :
    ∀ {ps : List (List Char)}, u ∈ joinComma ps →
      u = ',' ∨ u = '\x20' ∨ ∃ p, p ∈ ps ∧ u ∈ p
  | [], h => by simp [joinComma] at h
  | [p], h => by
    simp only [joinComma] at h
    exact .inr (.inr ⟨p, by simp, h⟩)
  | p :: q :: ps, h => by
    simp only [joinComma, List.mem_append, List.mem_cons] at h
    rcases h with hp | h | h | h
    · exact .inr (.inr ⟨p, by simp, hp⟩)
    · exact .inl h
    · exact .inr (.inl h)
    rcases mem_joinComma h with h | h | ⟨r, hr, hur⟩
    · exact .inl h
    · exact .inr (.inl h)
    · exact .inr (.inr ⟨r, by simp [List.mem_cons.mp hr], hur⟩)

theorem mem_dumpEntry {u : Char} {kv : String × String} (h : u ∈ dumpEntry kv) :
    u = '\x22' ∨ u = ':' ∨ u = '\x20' ∨ u ∈ kv.1.data ∨ u ∈ kv.2.data := by
  simp only [dumpEntry, List.mem_cons, List.mem_append] at h
  tauto

theorem dumpInner_chars (body : List (String × String)) (h : ∀ kv ∈ body, cleanKV kv) :
    ∀ u ∈ joinComma (body.map dumpEntry), u ≠ '%' ∧ u ≠ '\x7d' := by
  intro u hu
  rcases mem_joinComma hu with h1 | h1 | ⟨p, hp, hup⟩
  · subst h1; exact ⟨by decide, by decide⟩
  · subst h1; exact ⟨by decide, by decide⟩
  obtain ⟨kv, hkv, rfl⟩ := List.mem_map.mp hp
  rcases mem_dumpEntry hup with h2 | h2 | h2 | h2 | h2
  · subst h2; exact ⟨by decide, by decide⟩
  · subst h2; exact ⟨by decide, by decide⟩
  · subst h2; exact ⟨by decide, by decide⟩
  · exact ⟨((h kv hkv).1 u h2).2.1, ((h kv hkv).1 u h2).2.2⟩
  · exact ⟨((h kv hkv).2 u h2).2.1, ((h kv hkv).2 u h2).2.2⟩

theorem quoted_key_no_colon (k : List Char) (hk : ∀ u ∈ k, u ≠ ':') :
    ∀ u ∈ '\x22' :: k ++ ['\x22'], u ≠ ':' := by
  intro u hu
  rcases List.mem_cons.mp hu with rfl | hu
  · decide
  rcases List.mem_append.mp hu with h | h
  · exact hk u h
  · simp only [List.mem_singleton] at h
    subst h
    decide

theorem rep2_colon_dumpInner (body : List (String × String))
    (h : ∀ kv ∈ body, cleanKV kv) (tail : List Char)
    (htail : ∀ u ∈ tail, u ≠ ':') :
    rep2 ':' '\x20' ':' (joinComma (body.map dumpEntry) ++ tail)
      = joinComma (body.map strippedEntry) ++ tail := by
  induction body with
  | nil => simpa [joinComma] using rep2_eq_self ':' '\x20' ':' tail htail
  | cons kv rest ih =>
    have hk : ∀ u ∈ kv.1.data, u ≠ ':' :=
      fun u hu => ((h kv (List.mem_cons_self kv rest)).1 u hu).1
    have hv : ∀ u ∈ kv.2.data, u ≠ ':' :=
      fun u hu => ((h kv (List.mem_cons_self kv rest)).2 u hu).1
    have hq := quoted_key_no_colon kv.1.data hk
    cases rest with
    | nil =>
      have hshape : joinComma ([kv].map dumpEntry) ++ tail
          = ('\x22' :: kv.1.data ++ ['\x22'])
            ++ (':' :: '\x20' :: (kv.2.data ++ tail)) := by
        simp [joinComma, dumpEntry]
      rw [hshape, rep2_append_of_ne ':' '\x20' ':' _ _ hq, rep2_head_match,
        rep2_append_of_ne ':' '\x20' ':' _ _ hv, rep2_eq_self ':' '\x20' ':' tail htail]
      simp [joinComma, strippedEntry]
    | cons kv' rest' =>
      have hshape : joinComma ((kv :: kv' :: rest').map dumpEntry) ++ tail
          = ('\x22' :: kv.1.data ++ ['\x22'])
            ++ (':' :: '\x20' :: (kv.2.data
              ++ (',' :: '\x20' :: (joinComma ((kv' :: rest').map dumpEntry) ++ tail)))) := by
        simp [joinComma, dumpEntry]
      rw [hshape, rep2_append_of_ne ':' '\x20' ':' _ _ hq, rep2_head_match,
        rep2_append_of_ne ':' '\x20' ':' _ _ hv,
        rep2_cons_of_ne ':' '\x20' ':' ',' _ (by decide),
        rep2_cons_of_ne ':' '\x20' ':' '\x20' _ (by decide),
        ih (fun p hp => h p (List.mem_cons_of_mem kv hp))]
      simp [joinComma, strippedEntry]

/-- C3 (amended): for every non-empty body mapping (with keys and
values free of the replaced characters) the containment predicate is
`json_extract(body, "$") LIKE '%…%'` whose pattern is the `json.dumps`
serialization with the surrounding braces removed and every `": "`
compressed to `":"` — but with the `", "` between entries kept, i.e.
the space after each comma survives. -/
theorem c3_body_filter_serialization (body : List (String × String))
    (_hne : body ≠ []) (hclean : ∀ kv ∈ body, cleanKV kv) :
    jsonSearch body = jsonSearchExpected body := by
  have hinner := dumpInner_chars body hclean
  have hinner_pct : ∀ u ∈ joinComma (body.map dumpEntry), u ≠ '%' :=
    fun u hu => (hinner u hu).1
  have hinner_brace : ∀ u ∈ joinComma (body.map dumpEntry), u ≠ '\x7d' :=
    fun u hu => (hinner u hu).2
  have hshape : jsonSearchRaw body
      = likePrefix ++ '%' :: '\x7b'
        :: (joinComma (body.map dumpEntry) ++ '\x7d' :: '%' :: '\x27' :: []) := by
    simp [jsonSearchRaw, dumpBody]
  have pass1 : rep2 '%' '\x7b' '%' (jsonSearchRaw body)
      = likePrefix ++ '%' :: (joinComma (body.map dumpEntry) ++ '\x7d' :: '%' :: '\x27' :: []) := by
    have htail1 : rep2 '%' '\x7b' '%' ['\x7d', '%', '\x27'] = ['\x7d', '%', '\x27'] := by
      decide
    rw [hshape, rep2_append_of_ne '%' '\x7b' '%' likePrefix _ (by decide), rep2_head_match,
      rep2_append_of_ne '%' '\x7b' '%' _ _ hinner_pct, htail1]
  have pass2 : rep2 '\x7d' '%' '%'
        (likePrefix ++ '%' :: (joinComma (body.map dumpEntry) ++ '\x7d' :: '%' :: '\x27' :: []))
      = likePrefix ++ '%' :: (joinComma (body.map dumpEntry) ++ '%' :: '\x27' :: []) := by
    have htail2 : rep2 '\x7d' '%' '%' ['\x7d', '%', '\x27'] = ['%', '\x27'] := by
      decide
    rw [rep2_append_of_ne '\x7d' '%' '%' likePrefix _ (by decide),
      rep2_cons_of_ne '\x7d' '%' '%' '%' _ (by decide),
      rep2_append_of_ne '\x7d' '%' '%' _ _ hinner_brace, htail2]
  have pass3 : rep2 ':' '\x20' ':'
        (likePrefix ++ '%' :: (joinComma (body.map dumpEntry) ++ '%' :: '\x27' :: []))
      = likePrefix ++ '%' :: (joinComma (body.map strippedEntry) ++ '%' :: '\x27' :: []) := by
    rw [rep2_append_of_ne ':' '\x20' ':' likePrefix _ (by decide),
      rep2_cons_of_ne ':' '\x20' ':' '%' _ (by decide),
      rep2_colon_dumpInner body hclean _ (by decide)]
  unfold jsonSearch jsonSearchExpected
  rw [pass1, pass2, pass3]
  simp

/-- Witness for C3 at a concrete two-entry body: the built fragment
matches `jsonSearchExpected` (pattern `"a":1, "b":2` — note the kept
space after the comma). -/
theorem c3_body_filter_serialization_witness :
    jsonSearch [("a", "1"), ("b", "2")] = jsonSearchExpected [("a", "1"), ("b", "2")] :=
  c3_body_filter_serialization [("a", "1"), ("b", "2")] (by decide) (by decide)

/-- C3 counterexample: on the two-entry body `\x7b"a": 1, "b": 2\x7d`
the code's fragment keeps the space after the comma (`"a":1, "b":2`),
so it differs from the fragment the claim describes, whose compact
serialization has no space after `','`. -/
theorem c3_comma_space_counterexample :
    jsonSearch [("a", "1"), ("b", "2")] ≠ specCompactSearch [("a", "1"), ("b", "2")] ∧
    jsonSearch [("a", "1"), ("b", "2")]
      = ("json_extract(body, \x22$\x22) LIKE \x27%\x22a\x22:1, \x22b\x22:2%\x27" : String).data := by
  decide

end Ein
